import Mathlib

set_option maxHeartbeats 1000000

/-!
Verification development for the Unknown Horizons multiplayer lobby server
(`horizons/network/server.py`).  The definitions below are a shallow
embedding of the server's state, packets and handlers.  The companion
module `horizons/network/common.py` (the `Game` and `Player` classes) and
`horizons/network/packets.py` (the codec) are not part of the sources at
hand; the few helpers taken from them (`is_open`, `is_full`, `is_empty`,
`add_player`, `remove_player`, `is_ready`, `clear`, and the unserialize
outcome) are modelled from the specification and are marked as such.
-/

namespace UH

/-- Game lifecycle states (spec section 4.4). -/
inductive GState
  | Open
  | Prepare
  | Running
deriving DecidableEq, Repr

/-- Error type tags carried by `cmd_error` packets (`ErrorType` in the code). -/
inductive ErrorType
  | NotSet
  | TerminateGame
deriving DecidableEq, Repr

/-- A connected player: session id, peer handle, protocol version, display
name, numeric color, client id, ready/prepared flags and owning game
reference (by game uuid).  `peerConnected` models `peer.state ==
enet.PEER_STATE_CONNECTED`. -/
structure Player where
  sid : String
  peer : Nat
  protocol : Nat
  name : String := ""
  color : Int := 0
  clientid : String := ""
  ready : Bool := false
  prepared : Bool := false
  game : Option Nat := none
  peerConnected : Bool := true
deriving DecidableEq, Repr

/-- A game lobby.  The creator is referenced by session id; the creator's
protocol and client version are captured at creation time (both fields are
immutable on the Python `Player` object). -/
structure Game where
  uuid : Nat
  creator : String
  creatorProtocol : Nat
  creatorVersion : Int
  mapname : String
  players : List String
  maxplayers : Nat
  password : Option String
  state : GState
deriving DecidableEq, Repr

/-- The server's mutable registries: `self.games` and `self.players`.
`nextUuid` stands in for the `uuid4()` generator used for fresh game ids. -/
structure ServerState where
  games : List Game
  players : List Player
  nextUuid : Nat := 0
deriving DecidableEq, Repr

/-- Payload of `packets.client.cmd_creategame`. -/
structure CreatePacket where
  clientversion : Int
  mapname : String
  maxplayers : Nat
  password : Option String
deriving DecidableEq, Repr

/-- Payload of `packets.client.cmd_joingame`. -/
structure JoinPacket where
  uuid : Nat
  clientversion : Int
  password : Option String
  playername : String
  playercolor : Option Int
  clientid : String
deriving DecidableEq, Repr

/-- Client packet bodies that the server dispatches on.  `unhandled` stands
for any packet class with no entry in the callback table (logged and
ignored by `onreceive`). -/
inductive CPacketBody
  | creategame (pk : CreatePacket)
  | joingame (pk : JoinPacket)
  | leavegame
  | preparedgame
  | toggleready
  | unhandled
deriving DecidableEq, Repr

/-- A parsed client packet: the embedded session id plus the body. -/
structure CPacket where
  sid : String
  body : CPacketBody
deriving DecidableEq, Repr

/-- Modelled from the spec: outcome of `packets.unserialize` (the codec in
`horizons/network/packets.py` is not among the sources).  A raw datagram is
abstracted by its length and by what unserialize yields on it: a parsed
packet, a recoverable `SoftNetworkException`, a `PacketTooLarge` error
naming the offending size, or any other (malformed) failure. -/
inductive ParseResult
  | ok (p : CPacket)
  | softErr (m : String)
  | tooLarge (size : Nat)
  | malformed
deriving DecidableEq, Repr

/-- Raw bytes of an inbound datagram, abstracted by length and parse
outcome (see `ParseResult`). -/
structure RawData where
  len : Nat
  parse : ParseResult
deriving DecidableEq, Repr

/-- Messages sent by the server, one constructor per distinct message
produced in `server.py` (localized strings are abstracted to tags; the
per-packet-size message carries the offending size, mirroring `str(e)`). -/
inductive Msg
  | unknownPlayer
  | globalSizeExceeded
  | perPacketSize (size : Nat)
  | malformed
  | invalidSession
  | tooFewPlayers (n : Nat)
  | tooManyPlayers (n : Nat)
  | alreadyInGame
  | unknownGame
  | gameStarted
  | gameFull
  | wrongPassword
  | nameTaken
  | colorTaken
  | clientidTaken
  | notInGame
  | terminated
  | legacyTerminated
  | softMsg (m : String)
deriving DecidableEq, Repr

/-- Server-originated packets. -/
inductive SPacket
  | error (msg : Msg) (etype : ErrorType)
  | fatalerror (msg : Msg)
  | session (sid : String)
  | gamestate (g : Game)
  | preparegame
  | startgame
  | ok
deriving DecidableEq, Repr

/-- Observable network effects of a handler: a typed send, a raw relay
send, or a disconnect (with the `later` flag of `Server.disconnect`). -/
inductive Action
  | send (peer : Nat) (pkt : SPacket)
  | sendraw (peer : Nat) (data : RawData)
  | disconnect (peer : Nat) (later : Bool)
deriving DecidableEq, Repr

/-- Server capability `minplayers`. -/
def minplayers : Nat := 2

/-- Server capability `maxplayers`. -/
def maxplayersCap : Nat := 8

/-- Server capability `maxpacketsize` (the global packet size maximum). -/
def maxpacketsize : Nat := 2 * 1024 * 1024

/-- Lookup of `self.players[sid]`. -/
def findPlayer (s : ServerState) (sid : String) : Option Player :=
  s.players.find? (fun p => decide (p.sid = sid))

/-- Lookup of a game by uuid in `self.games`. -/
def findGameByUuid (s : ServerState) (u : Nat) : Option Game :=
  s.games.find? (fun g => decide (g.uuid = u))

/-- Replace the player record with session id `sid` by `f` applied to it. -/
def updatePlayer (s : ServerState) (sid : String) (f : Player → Player) : ServerState :=
  { s with players := s.players.map (fun p => if p.sid = sid then f p else p) }

/-- Replace every game with uuid `u` by `g'` (uuids are unique in practice,
so this is the in-place mutation of the one `Game` object). -/
def updateGame (s : ServerState) (u : Nat) (g' : Game) : ServerState :=
  { s with games := s.games.map (fun g => if g.uuid = u then g' else g) }

/-- Remove the game with uuid `u` from the registry. -/
def removeGame (s : ServerState) (u : Nat) : ServerState :=
  { s with games := s.games.filter (fun g => decide (¬ g.uuid = u)) }

/-- Modelled from the spec: `Game.is_open` — the game is in the Open state. -/
def Game.is_open (g : Game) : Bool := g.state = GState.Open

/-- Modelled from the spec: `Game.is_full` — member count has reached the
maximum ("member count never exceeds max"). -/
def Game.is_full (g : Game) : Bool := g.maxplayers ≤ g.players.length

/-- Modelled from the spec: `Game.is_empty` — no members left. -/
def Game.is_empty (g : Game) : Bool := g.players.isEmpty

/-- Modelled from the spec: `Game.playercnt`. -/
def Game.playercnt (g : Game) : Nat := g.players.length

/-- Modelled from the spec: `Game.has_password`. -/
def Game.has_password (g : Game) : Bool := g.password.isSome

/-- Member `Player` records of a game, in join order. -/
def gamePlayers (s : ServerState) (g : Game) : List Player :=
  g.players.filterMap (findPlayer s)

/-- Modelled from the spec: `Game.is_ready` — every current member has the
ready flag set. -/
def gameIsReady (s : ServerState) (g : Game) : Bool :=
  (gamePlayers s g).all (fun p => p.ready)

/-- Actions of `Server.fatalerror`: send `cmd_fatalerror` then disconnect
(later). -/
def fatalActs (peer : Nat) (m : Msg) : List Action :=
  [Action.send peer (SPacket.fatalerror m), Action.disconnect peer true]

/-- The candidate color sequence `range(1, len(colors) + 2)` of
`Server.onjoingame`: `n` consecutive integers starting at `k` (see
`candList_eq_range_map` for the equivalence with Python's `range`). -/
def candList (k : Int) : Nat → List Int
  | 0 => []
  | n + 1 => k :: candList (k + 1) n

/-- Color auto-assignment loop of `Server.onjoingame` (lines 421-430):
iterate `color` over `range(1, len(colors) + 2)` and stop at the first
value not in `colors`; if the loop runs out (provably impossible), the
loop variable is left at its last value `1 + len(colors)`. -/
def assign_color (colors : List Int) : Int :=
  match (candList 1 (colors.length + 1)).find? (fun c => decide (c ∉ colors)) with
  | some c => c
  | none => 1 + (colors.length : Int)

/-- The color `Server.onjoingame` ends up using: the requested one, or the
auto-assigned one when the join packet requests no color. -/
def resolvedColor (s : ServerState) (g : Game) (pk : JoinPacket) : Int :=
  match pk.playercolor with
  | none => assign_color ((gamePlayers s g).map (fun p => p.color))
  | some c => c

lemma candList_succ (k : Int) (n : Nat) :
    candList k (n + 1) = k :: candList (k + 1) n := rfl

/-- The candidate list is exactly Python's `range(k, k + n)` as integers. -/
lemma candList_eq_range_map (k : Int) (n : Nat) :
    candList k n = (List.range n).map (fun i : Nat => k + (i : Int)) := by
  induction n generalizing k with
  | zero => rfl
  | succ m ih =>
    rw [List.range_succ_eq_map, List.map_cons, List.map_map, candList_succ, ih (k + 1)]
    congr 1
    · simp
    · apply List.map_congr_left
      intro a _
      simp only [Function.comp_apply, Nat.succ_eq_add_one]
      push_cast
      ring

/-- What a successful `find?` over a consecutive candidate list tells us:
the found value satisfies the predicate, lies in the range, and every
smaller in-range value fails the predicate. -/
lemma candList_find_spec (p : Int → Bool) :
    ∀ (n : Nat) (k c : Int), (candList k n).find? p = some c →
      p c = true ∧ k ≤ c ∧ c < k + n ∧ ∀ b : Int, k ≤ b → b < c → p b = false := by
  intro n
  induction n with
  | zero =>
    intro k c h
    simp [candList] at h
  | succ m ih =>
    intro k c h
    rw [candList_succ] at h
    by_cases hk : p k = true
    · rw [List.find?_cons_of_pos _ hk] at h
      obtain rfl : k = c := by injection h
      refine ⟨hk, le_refl _, by omega, ?_⟩
      intro b hb1 hb2
      omega
    · have hk' : p k = false := by
        cases hpk : p k
        · rfl
        · exact absurd hpk hk
      rw [List.find?_cons_of_neg _ (by simp [hk'])] at h
      obtain ⟨h1, h2, h3, h4⟩ := ih (k + 1) c h
      refine ⟨h1, by omega, by omega, ?_⟩
      intro b hb1 hb2
      rcases eq_or_lt_of_le hb1 with hb | hb
      · rw [← hb]; exact hk'
      · exact h4 b (by omega) hb2

lemma mem_candList (k : Int) (n : Nat) (c : Int) :
    c ∈ candList k n ↔ k ≤ c ∧ c < k + n := by
  induction n generalizing k with
  | zero =>
    simp [candList]
  | succ m ih =>
    rw [candList_succ, List.mem_cons, ih (k + 1)]
    omega

lemma candList_nodup (k : Int) (n : Nat) : (candList k n).Nodup := by
  induction n generalizing k with
  | zero => exact List.nodup_nil
  | succ m ih =>
    rw [candList_succ, List.nodup_cons, mem_candList]
    exact ⟨by omega, ih (k + 1)⟩

lemma candList_length (k : Int) (n : Nat) : (candList k n).length = n := by
  induction n generalizing k with
  | zero => rfl
  | succ m ih =>
    rw [candList_succ, List.length_cons, ih (k + 1)]

/-- Pigeonhole: among the `len(colors) + 1` candidate colors at least one
is unused. -/
lemma candList_exists_free (colors : List Int) :
    ∃ c ∈ candList 1 (colors.length + 1), c ∉ colors := by
  by_contra hcon
  push_neg at hcon
  have hsub : (candList 1 (colors.length + 1)).toFinset ⊆ colors.toFinset := by
    intro c hc
    rw [List.mem_toFinset] at hc ⊢
    exact hcon c hc
  have h1 : (candList 1 (colors.length + 1)).toFinset.card = colors.length + 1 := by
    rw [List.toFinset_card_of_nodup (candList_nodup 1 (colors.length + 1))]
    exact candList_length 1 (colors.length + 1)
  have h2 : colors.toFinset.card ≤ colors.length := colors.toFinset_card_le
  have := Finset.card_le_card hsub
  omega

/-- Exception that can escape a packet handler: `SoftNetworkException`
raised by `Server.oncreategame` (there is no try/except around the handler
dispatch in `Server.onreceive`, so it propagates). -/
inductive Exn
  | soft (m : Msg)
deriving DecidableEq, Repr

/-- Embedding of `Server.deletegame`: `game.clear()` (members drop their
game reference — modelled from the spec, `Game.clear` lives in the absent
`common.py`) followed by `self.games.remove(game)`. -/
def deletegame (s : ServerState) (g : Game) : ServerState × List Action :=
  let s1 := g.players.foldl
    (fun acc sid => updatePlayer acc sid (fun p => { p with game := none })) s
  (removeGame s1 g.uuid, [])

/-- Embedding of `Server.terminategame` (lines 484-498): when the creator
runs protocol ≥ 1 and the game is still open, every member receives a
`TerminateGame` error; otherwise every still-connected member is
fatal-errored (legacy path).  The game is deleted afterwards. -/
def terminategame (s : ServerState) (g : Game) : ServerState × List Action :=
  ((deletegame s g).1,
   (if 1 ≤ g.creatorProtocol ∧ g.is_open = true then
      (gamePlayers s g).map
        (fun p => Action.send p.peer (SPacket.error Msg.terminated ErrorType.TerminateGame))
    else
      ((gamePlayers s g).filter (fun p => p.peerConnected)).foldr
        (fun p acc => fatalActs p.peer Msg.legacyTerminated ++ acc) [])
   ++ (deletegame s g).2)

/-- Embedding of `Server.preparegame` (lines 501-506): set the game state
to `Prepare` and send `cmd_preparegame` to every member. -/
def preparegame (s : ServerState) (g : Game) : ServerState × List Action :=
  (updateGame s g.uuid { g with state := GState.Prepare },
   (gamePlayers s g).map (fun p => Action.send p.peer SPacket.preparegame))

/-- Embedding of `Server.startgame` (lines 509-514): set the game state to
`Running` and send `cmd_startgame` to every member. -/
def startgame (s : ServerState) (g : Game) : ServerState × List Action :=
  (updateGame s g.uuid { g with state := GState.Running },
   (gamePlayers s g).map (fun p => Action.send p.peer SPacket.startgame))

/-- The game object after `game.remove_player(player)` (modelled from the
spec; `Game.remove_player` lives in the absent `common.py`). -/
def erasedGame (g : Game) (p : Player) : Game :=
  { g with players := g.players.erase p.sid }

/-- The registries after `game.remove_player(player)`: the member list
loses the player and the player record drops its game reference. -/
def leftState (s : ServerState) (g : Game) (p : Player) : ServerState :=
  updatePlayer (updateGame s g.uuid (erasedGame g p)) p.sid
    (fun q => { q with game := none })

/-- The `data_gamestate` refresh sent to every remaining member by
`Server.leavegame`. -/
def leaveSnap (s : ServerState) (g : Game) (p : Player) : List Action :=
  (gamePlayers (leftState s g p) (erasedGame g p)).map
    (fun q => Action.send q.peer (SPacket.gamestate (erasedGame g p)))

/-- Embedding of `Server.leavegame` (lines 465-481).  A non-open game is
hard-terminated.  Otherwise the player is removed; an emptied game is
deleted; else every remaining member receives a fresh `data_gamestate`
snapshot, and if the leaver was the creator running protocol ≥ 1 the game
is terminated. -/
def leavegame (s : ServerState) (p : Player) : ServerState × List Action :=
  match p.game with
  | none => (s, [])
  | some u =>
    match findGameByUuid s u with
    | none => (s, [])
    | some g =>
      if g.is_open = false then terminategame s g
      else if (erasedGame g p).is_empty = true then
        deletegame (leftState s g p) (erasedGame g p)
      else if 1 ≤ p.protocol ∧ p.sid = g.creator then
        ((terminategame (leftState s g p) (erasedGame g p)).1,
         leaveSnap s g p ++ (terminategame (leftState s g p) (erasedGame g p)).2)
      else (leftState s g p, leaveSnap s g p)

/-- Embedding of `Server.onleavegame` (lines 457-462). -/
def onleavegame (s : ServerState) (p : Player) : ServerState × List Action :=
  if p.game = none then
    (s, [Action.send p.peer (SPacket.error Msg.notInGame ErrorType.NotSet)])
  else
    ((leavegame s p).1, (leavegame s p).2 ++ [Action.send p.peer SPacket.ok])

/-- Embedding of `Server.ondisconnect` (lines 258-267): an unknown peer is
ignored; a member of a game is routed through `leavegame` first, then the
player record is deleted. -/
def ondisconnect (s : ServerState) (peerData : Option String) : ServerState × List Action :=
  match peerData with
  | none => (s, [])
  | some d =>
    match findPlayer s d with
    | none => (s, [])
    | some player =>
      if player.game ≠ none then
        ({ (leavegame s player).1 with players :=
            (leavegame s player).1.players.filter (fun q => decide (¬ q.sid = player.sid)) },
         (leavegame s player).2)
      else
        ({ s with players := s.players.filter (fun q => decide (¬ q.sid = player.sid)) }, [])

/-- The uniqueness loop of `Server.onjoingame` (lines 432-445): the first
member colliding with the joining player's name, color or client id, in
that per-member check order, determines the error. -/
def collisionMsg : List Player → String → Int → String → Option Msg
  | [], _, _, _ => none
  | m :: rest, name, color, cid =>
    if m.name = name then some Msg.nameTaken
    else if m.color = color then some Msg.colorTaken
    else if m.clientid = cid then some Msg.clientidTaken
    else collisionMsg rest name color cid

/-- Embedding of `Server.__find_game_from_uuid` (lines 390-399): first game
whose creator version and uuid both match the packet. -/
def find_game_from_uuid (s : ServerState) (pk : JoinPacket) : Option Game :=
  s.games.find? (fun g => decide (pk.clientversion = g.creatorVersion ∧ pk.uuid = g.uuid))

/-- The game object after `game.add_player(player, packet)` (modelled from
the spec; `Game.add_player` lives in the absent `common.py`): the joiner is
appended, preserving join order. -/
def joinedGame (g : Game) (p : Player) : Game :=
  { g with players := g.players ++ [p.sid] }

/-- The registries after `game.add_player(player, packet)`: member list
extended, and the joining player takes the packet's name, the resolved
color, the packet's client id and the game reference. -/
def joinedState (s : ServerState) (g : Game) (p : Player) (pk : JoinPacket) : ServerState :=
  updatePlayer (updateGame s g.uuid (joinedGame g p)) p.sid
    (fun q =>
      { q with
          game := some g.uuid
          name := pk.playername
          color := resolvedColor s g pk
          clientid := pk.clientid
          ready := false
          prepared := false })

/-- The `data_gamestate` broadcast sent to every member (joiner included)
by `Server.onjoingame` after a successful join. -/
def joinSnap (s : ServerState) (g : Game) (p : Player) (pk : JoinPacket) : List Action :=
  (gamePlayers (joinedState s g p pk) (joinedGame g p)).map
    (fun q => Action.send q.peer (SPacket.gamestate (joinedGame g p)))

/-- Embedding of `Server.onjoingame` (lines 402-454): guard chain (already
in a game, unknown game, not open, full, wrong password), color
auto-assignment, uniqueness checks, `add_player` plus a `data_gamestate`
broadcast, and the protocol-0 auto-prepare when the game becomes full. -/
def onjoingame (s : ServerState) (p : Player) (pk : JoinPacket) : ServerState × List Action :=
  if p.game ≠ none then
    (s, [Action.send p.peer (SPacket.error Msg.alreadyInGame ErrorType.NotSet)])
  else
    match find_game_from_uuid s pk with
    | none => (s, [Action.send p.peer (SPacket.error Msg.unknownGame ErrorType.NotSet)])
    | some g =>
      if g.is_open = false then
        (s, [Action.send p.peer (SPacket.error Msg.gameStarted ErrorType.NotSet)])
      else if g.is_full = true then
        (s, [Action.send p.peer (SPacket.error Msg.gameFull ErrorType.NotSet)])
      else if g.has_password = true ∧ pk.password ≠ g.password then
        (s, [Action.send p.peer (SPacket.error Msg.wrongPassword ErrorType.NotSet)])
      else
        match collisionMsg (gamePlayers s g) pk.playername (resolvedColor s g pk) pk.clientid with
        | some m => (s, [Action.send p.peer (SPacket.error m ErrorType.NotSet)])
        | none =>
          if p.protocol = 0 then
            if (joinedGame g p).is_full = true then
              ((preparegame (joinedState s g p pk) (joinedGame g p)).1,
               joinSnap s g p pk ++ (preparegame (joinedState s g p pk) (joinedGame g p)).2)
            else (joinedState s g p pk, joinSnap s g p pk)
          else (joinedState s g p pk, joinSnap s g p pk)

/-- Embedding of `Server.oncreategame` (lines 351-363): a `maxplayers`
below the server minimum or above the server maximum raises a
`SoftNetworkException`; otherwise a fresh `Game` in the Open state is
registered with the creator auto-joined and a `data_gamestate` reply is
sent. -/
def oncreategame (s : ServerState) (p : Player) (pk : CreatePacket) :
    Except Exn (ServerState × List Action) :=
  if pk.maxplayers < minplayers then
    Except.error (Exn.soft (Msg.tooFewPlayers minplayers))
  else if pk.maxplayers > maxplayersCap then
    Except.error (Exn.soft (Msg.tooManyPlayers maxplayersCap))
  else
    let g : Game := {
      uuid := s.nextUuid, creator := p.sid, creatorProtocol := p.protocol,
      creatorVersion := pk.clientversion, mapname := pk.mapname,
      players := [p.sid], maxplayers := pk.maxplayers,
      password := pk.password, state := GState.Open }
    let s1 := { s with games := s.games ++ [g], nextUuid := s.nextUuid + 1 }
    let s2 := updatePlayer s1 p.sid (fun q => { q with game := some g.uuid })
    Except.ok (s2, [Action.send p.peer (SPacket.gamestate g)])

/-- The registries after `player.prepared = True`. -/
def preparedState (s : ServerState) (p : Player) : ServerState :=
  updatePlayer s p.sid (fun q => { q with prepared := true })

/-- The registries after `player.toggle_ready()` (modelled from the spec;
`Player.toggle_ready` lives in the absent `common.py`). -/
def toggledState (s : ServerState) (p : Player) : ServerState :=
  updatePlayer s p.sid (fun q => { q with ready := !q.ready })

/-- Embedding of `Server.onpreparedgame` (lines 600-612): mark the sender
prepared, count prepared members, and start the game once every member is
prepared.  Note the code never checks that the game is in the `Prepare`
state. -/
def onpreparedgame (s : ServerState) (p : Player) : ServerState × List Action :=
  match p.game with
  | none => (s, [])
  | some u =>
    match findGameByUuid s u with
    | none => (s, [])
    | some g =>
      if ((gamePlayers (preparedState s p) g).filter (fun q => q.prepared)).length ≠ g.playercnt
      then (preparedState s p, [])
      else startgame (preparedState s p) g

/-- Embedding of `Server.ontoggleready` (lines 615-632): only in open
games; toggle the flag, broadcast a `data_gamestate` snapshot, and move to
`Prepare` when every member is ready. -/
def ontoggleready (s : ServerState) (p : Player) : ServerState × List Action :=
  match p.game with
  | none => (s, [])
  | some u =>
    match findGameByUuid s u with
    | none => (s, [])
    | some g =>
      if g.is_open = false then (s, [])
      else if gameIsReady (toggledState s p) g = true then
        ((preparegame (toggledState s p) g).1,
         (gamePlayers (toggledState s p) g).map
           (fun q => Action.send q.peer (SPacket.gamestate g))
           ++ (preparegame (toggledState s p) g).2)
      else (toggledState s p,
            (gamePlayers (toggledState s p) g).map
              (fun q => Action.send q.peer (SPacket.gamestate g)))

/-- Embedding of `Server.gamedata` (lines 589-595): forward the raw bytes
verbatim to every other member of the sender's game. -/
def gamedata (s : ServerState) (p : Player) (data : RawData) : ServerState × List Action :=
  match p.game with
  | none => (s, [])
  | some u =>
    match findGameByUuid s u with
    | none => (s, [])
    | some g =>
      (s, (gamePlayers s g).filterMap
        (fun q => if q.sid = p.sid then none else some (Action.sendraw q.peer data)))

/-- The condition of the `onreceive` short path (line 291): the sender
belongs to a game whose state is `Running`. -/
def playerInRunningGame (s : ServerState) (p : Player) : Bool :=
  match p.game with
  | none => false
  | some u =>
    match findGameByUuid s u with
    | none => false
    | some g => g.state = GState.Running

/-- Dispatch of a parsed client packet to its registered handler (the
callback table of `Server.__init__` holds exactly one handler per packet
class; an unknown packet class is logged and ignored).  Only
`oncreategame` can raise. -/
def dispatchPacket (s : ServerState) (p : Player) (pkt : CPacket) :
    Except Exn (ServerState × List Action) :=
  match pkt.body with
  | CPacketBody.creategame cp => oncreategame s p cp
  | CPacketBody.joingame jp => Except.ok (onjoingame s p jp)
  | CPacketBody.leavegame => Except.ok (onleavegame s p)
  | CPacketBody.preparedgame => Except.ok (onpreparedgame s p)
  | CPacketBody.toggleready => Except.ok (ontoggleready s p)
  | CPacketBody.unhandled => Except.ok (s, [])

/-- Embedding of `Server.onreceive` (lines 270-328): unknown peer check,
global size ceiling, the Running-state relay short path, unserialization
with its three except clauses, the session id check, and handler dispatch.
Exceptions raised by the dispatched handler are not caught (there is no
surrounding try/except), hence the `Except` result. -/
def onreceive (s : ServerState) (peerData : Option String) (peer : Nat) (data : RawData) :
    Except Exn (ServerState × List Action) :=
  match (match peerData with | none => none | some d => findPlayer s d) with
  | none =>
    Except.ok (s, [Action.send peer (SPacket.fatalerror Msg.unknownPlayer),
                   Action.disconnect peer true])
  | some player =>
    if maxpacketsize < data.len then
      Except.ok (s, fatalActs player.peer Msg.globalSizeExceeded)
    else if playerInRunningGame s player = true then
      Except.ok (gamedata s player data)
    else
      match data.parse with
      | ParseResult.softErr m =>
        Except.ok (s, [Action.send player.peer (SPacket.error (Msg.softMsg m) ErrorType.NotSet)])
      | ParseResult.tooLarge size =>
        Except.ok (s, fatalActs player.peer (Msg.perPacketSize size))
      | ParseResult.malformed =>
        Except.ok (s, fatalActs player.peer Msg.malformed)
      | ParseResult.ok pkt =>
        if pkt.sid ≠ player.sid then
          Except.ok (s, fatalActs player.peer Msg.invalidSession)
        else
          dispatchPacket s player pkt

/-- Embedding of `Server.call_callbacks` (lines 151-160) over an abstract
callback table.  A handler is a function from the event argument to its
returned value (`none` models Python's `None`) together with its trace of
observable effects.  An unknown key returns `None` without calling
anything; otherwise every handler of the key runs in list order, a `None`
result counts as `True`, and the boolean results are AND-combined. -/
def call_callbacks {κ α ε : Type} [DecidableEq κ]
    (tbl : List (κ × List (α → Option Bool × List ε))) (k : κ) (a : α) :
    Option Bool × List ε :=
  match tbl.find? (fun e => decide (e.1 = k)) with
  | none => (none, [])
  | some e =>
    let r := e.2.foldl
      (fun acc cb => (acc.1 && ((cb a).1.getD true), acc.2 ++ (cb a).2))
      (true, ([] : List ε))
    (some r.1, r.2)

/-- Embedding of `Server.register_callback` (lines 141-148): a known key
gets the handler inserted at the head (`prepend=True`) or appended at the
tail; an unknown key raises `TypeError`. -/
def register_callback {κ H : Type} [DecidableEq κ]
    (tbl : List (κ × List H)) (k : κ) (cb : H) (prepend : Bool) :
    Except String (List (κ × List H)) :=
  if tbl.any (fun e => decide (e.1 = k)) then
    Except.ok (tbl.map (fun e =>
      if e.1 = k then (e.1, if prepend then cb :: e.2 else e.2 ++ [cb]) else e))
  else Except.error "Unsupported type"

/-- The `join` and `leave` operations of the lobby state machine, plus
`create` (which also registers a game), acting on a named player. -/
inductive Op
  | create (sid : String) (pk : CreatePacket)
  | join (sid : String) (pk : JoinPacket)
  | leave (sid : String)
deriving DecidableEq, Repr

/-- One lobby operation applied to the registries (an unknown session id,
or a rejected create, leaves the state unchanged). -/
def stepOp (s : ServerState) (op : Op) : ServerState :=
  match op with
  | Op.create sid pk =>
    match findPlayer s sid with
    | none => s
    | some p =>
      match oncreategame s p pk with
      | Except.ok r => r.1
      | Except.error _ => s
  | Op.join sid pk =>
    match findPlayer s sid with
    | none => s
    | some p => (onjoingame s p pk).1
  | Op.leave sid =>
    match findPlayer s sid with
    | none => s
    | some p => (leavegame s p).1

/-- A whole sequence of lobby operations. -/
def runOps (s : ServerState) (ops : List Op) : ServerState :=
  ops.foldl stepOp s

/-- The per-game registry invariant: member count between 0 and
`maxplayers`, and never zero for a registered game. -/
def GameInv (g : Game) : Prop :=
  0 ≤ g.players.length ∧ g.players.length ≤ g.maxplayers ∧ g.players ≠ []

/-- Every game in the registry satisfies `GameInv`. -/
def RegistryInv (s : ServerState) : Prop :=
  ∀ g ∈ s.games, GameInv g

lemma updatePlayer_games (s : ServerState) (sid : String) (f : Player → Player) :
    (updatePlayer s sid f).games = s.games := rfl

lemma clearFold_games (l : List String) :
    ∀ s : ServerState,
      (l.foldl (fun acc sid => updatePlayer acc sid (fun p => { p with game := none })) s).games
        = s.games := by
  induction l with
  | nil => intro s; rfl
  | cons a t ih =>
    intro s
    rw [List.foldl_cons, ih]
    rfl

lemma deletegame_games (s : ServerState) (g : Game) :
    (deletegame s g).1.games = s.games.filter (fun x => decide (¬ x.uuid = g.uuid)) := by
  unfold deletegame removeGame
  simp only
  rw [clearFold_games]

lemma terminategame_fst (s : ServerState) (g : Game) :
    (terminategame s g).1 = (deletegame s g).1 := rfl

lemma registryInv_sub (s s' : ServerState)
    (hsub : ∀ g ∈ s'.games, g ∈ s.games) (h : RegistryInv s) : RegistryInv s' :=
  fun g hg => h g (hsub g hg)

lemma deletegame_inv (s : ServerState) (g : Game) (h : RegistryInv s) :
    RegistryInv (deletegame s g).1 := by
  intro x hx
  rw [deletegame_games] at hx
  exact h x (List.mem_of_mem_filter hx)

lemma terminategame_inv (s : ServerState) (g : Game) (h : RegistryInv s) :
    RegistryInv (terminategame s g).1 := by
  rw [terminategame_fst]
  exact deletegame_inv s g h

lemma registryInv_updateGame (s : ServerState) (u : Nat) (g' : Game)
    (h : RegistryInv s) (hg' : GameInv g') : RegistryInv (updateGame s u g') := by
  intro g hg
  unfold updateGame at hg
  simp only [List.mem_map] at hg
  obtain ⟨x, hx, hxg⟩ := hg
  by_cases hc : x.uuid = u
  · rw [if_pos hc] at hxg
    rw [← hxg]
    exact hg'
  · rw [if_neg hc] at hxg
    rw [← hxg]
    exact h x hx

lemma filter_map_update (l : List Game) (u : Nat) (g' : Game) (hu : g'.uuid = u) :
    (l.map (fun g => if g.uuid = u then g' else g)).filter (fun x => decide (¬ x.uuid = u))
      = l.filter (fun x => decide (¬ x.uuid = u)) := by
  induction l with
  | nil => rfl
  | cons a t ih =>
    by_cases h : a.uuid = u
    · simp only [List.map_cons, if_pos h, List.filter_cons]
      rw [if_neg (by simp [hu]), if_neg (by simp [h]), ih]
    · simp only [List.map_cons, if_neg h, List.filter_cons]
      rw [if_pos (by simp [h]), if_pos (by simp [h]), ih]

lemma registryInv_updatePlayer (s : ServerState) (sid : String) (f : Player → Player)
    (h : RegistryInv s) : RegistryInv (updatePlayer s sid f) := by
  intro g hg
  rw [updatePlayer_games] at hg
  exact h g hg

lemma preparegame_fst (s : ServerState) (g : Game) :
    (preparegame s g).1 = updateGame s g.uuid { g with state := GState.Prepare } := rfl

lemma startgame_fst (s : ServerState) (g : Game) :
    (startgame s g).1 = updateGame s g.uuid { g with state := GState.Running } := rfl

lemma erasedGame_uuid (g : Game) (p : Player) : (erasedGame g p).uuid = g.uuid := rfl

lemma joinedGame_uuid (g : Game) (p : Player) : (joinedGame g p).uuid = g.uuid := rfl

lemma leftState_games (s : ServerState) (g : Game) (p : Player) :
    (leftState s g p).games
      = s.games.map (fun x => if x.uuid = g.uuid then erasedGame g p else x) := rfl

lemma joinedState_games (s : ServerState) (g : Game) (p : Player) (pk : JoinPacket) :
    (joinedState s g p pk).games
      = s.games.map (fun x => if x.uuid = g.uuid then joinedGame g p else x) := rfl

lemma gameInv_joinedGame (g : Game) (p : Player) (hfull : ¬ g.is_full = true) :
    GameInv (joinedGame g p) := by
  refine ⟨Nat.zero_le _, ?_, by simp [joinedGame]⟩
  simp only [Game.is_full, decide_eq_true_eq] at hfull
  simp only [joinedGame, List.length_append, List.length_cons, List.length_nil]
  omega

lemma oncreategame_inv (s : ServerState) (p : Player) (pk : CreatePacket)
    (h : RegistryInv s) (r : ServerState × List Action)
    (hr : oncreategame s p pk = Except.ok r) : RegistryInv r.1 := by
  unfold oncreategame at hr
  split_ifs at hr with h1 h2
  simp only [Except.ok.injEq] at hr
  rw [← hr]
  intro x hx
  rw [updatePlayer_games] at hx
  simp only [List.mem_append, List.mem_singleton] at hx
  rcases hx with hx | hx
  · exact h x hx
  · rw [hx]
    refine ⟨Nat.zero_le _, ?_, by simp⟩
    simp only [minplayers] at h1
    simp only [List.length_cons, List.length_nil]
    omega

lemma onjoingame_inv (s : ServerState) (p : Player) (pk : JoinPacket)
    (h : RegistryInv s) : RegistryInv (onjoingame s p pk).1 := by
  unfold onjoingame
  split
  · exact h
  · split
    · exact h
    · rename_i g hfind
      split_ifs with h1 h2 h3 h4 h5
      · exact h
      · exact h
      · exact h
      · split
        · exact h
        · show RegistryInv (preparegame (joinedState s g p pk) (joinedGame g p)).1
          rw [preparegame_fst]
          refine registryInv_updateGame _ _ _ ?_ (gameInv_joinedGame g p h2)
          exact registryInv_updatePlayer _ _ _
            (registryInv_updateGame _ _ _ h (gameInv_joinedGame g p h2))
      · split
        · exact h
        · exact registryInv_updatePlayer _ _ _
            (registryInv_updateGame _ _ _ h (gameInv_joinedGame g p h2))
      · split
        · exact h
        · exact registryInv_updatePlayer _ _ _
            (registryInv_updateGame _ _ _ h (gameInv_joinedGame g p h2))

lemma leavegame_inv (s : ServerState) (p : Player)
    (h : RegistryInv s) : RegistryInv (leavegame s p).1 := by
  unfold leavegame
  split
  · exact h
  · split
    · exact h
    · rename_i g hfind
      have hmem : g ∈ s.games := by
        unfold findGameByUuid at hfind
        exact List.mem_of_find?_eq_some hfind
      split_ifs with h1 h2 h3
      · exact terminategame_inv _ _ h
      · intro x hx
        rw [deletegame_games, leftState_games] at hx
        simp only [erasedGame_uuid] at hx
        rw [filter_map_update s.games g.uuid (erasedGame g p) rfl] at hx
        exact h x (List.mem_of_mem_filter hx)
      · rw [terminategame_fst]
        intro x hx
        rw [deletegame_games, leftState_games] at hx
        simp only [erasedGame_uuid] at hx
        rw [filter_map_update s.games g.uuid (erasedGame g p) rfl] at hx
        exact h x (List.mem_of_mem_filter hx)
      · apply registryInv_updatePlayer
        apply registryInv_updateGame _ _ _ h
        refine ⟨Nat.zero_le _, ?_, ?_⟩
        · calc ((erasedGame g p).players).length ≤ g.players.length :=
            (List.erase_sublist p.sid g.players).length_le
          _ ≤ g.maxplayers := (h g hmem).2.1
        · intro hnil
          apply h2
          simp only [Game.is_empty, hnil, List.isEmpty_nil]

lemma createStep_inv (s : ServerState) (p : Player) (pk : CreatePacket)
    (h : RegistryInv s) :
    RegistryInv (match oncreategame s p pk with
                 | Except.ok r => r.1
                 | Except.error _ => s) := by
  cases hr : oncreategame s p pk with
  | ok r => exact oncreategame_inv s p pk h r hr
  | error e => exact h

lemma stepOp_inv (s : ServerState) (op : Op) (h : RegistryInv s) :
    RegistryInv (stepOp s op) := by
  cases op with
  | create sid pk =>
    simp only [stepOp]
    cases hp : findPlayer s sid with
    | none => exact h
    | some p => exact createStep_inv s p pk h
  | join sid pk =>
    simp only [stepOp]
    cases hp : findPlayer s sid with
    | none => exact h
    | some p => exact onjoingame_inv s p pk h
  | leave sid =>
    simp only [stepOp]
    cases hp : findPlayer s sid with
    | none => exact h
    | some p => exact leavegame_inv s p h

/-- The auto-assigned color is the least positive integer not already in
use. -/
lemma assign_color_isLeast (colors : List Int) :
    IsLeast {c : Int | 1 ≤ c ∧ c ∉ colors} (assign_color colors) := by
  obtain ⟨w, hwmem, hwfree⟩ := candList_exists_free colors
  unfold assign_color
  cases hfind : (candList 1 (colors.length + 1)).find? (fun c => decide (c ∉ colors)) with
  | none =>
    rw [List.find?_eq_none] at hfind
    exact absurd (by simpa using hwfree) (by simpa using hfind w hwmem)
  | some c =>
    obtain ⟨h1, h2, h3, h4⟩ := candList_find_spec _ _ _ _ hfind
    constructor
    · exact ⟨h2, by simpa using h1⟩
    · intro b hb
      obtain ⟨hb1, hb2⟩ := hb
      by_contra hlt
      push_neg at hlt
      have := h4 b hb1 hlt
      simp at this
      exact hb2 this

lemma callbacks_foldl {α ε : Type} (a : α) :
    ∀ (cbs : List (α → Option Bool × List ε)) (b : Bool) (tr : List ε),
      cbs.foldl (fun acc cb => (acc.1 && ((cb a).1.getD true), acc.2 ++ (cb a).2)) (b, tr)
        = (b && cbs.all (fun cb => (cb a).1.getD true),
           tr ++ (cbs.map (fun cb => (cb a).2)).flatten) := by
  intro cbs
  induction cbs with
  | nil =>
    intro b tr
    simp
  | cons cb rest ih =>
    intro b tr
    rw [List.foldl_cons, ih]
    simp [Bool.and_assoc, List.append_assoc]

/-- Claim C6: after every sequence of create/join/leave lobby operations,
every game in the registry satisfies 0 ≤ member count ≤ maxplayers, and a
game whose member list becomes empty is removed from the registry, so no
registered game ever has zero members. -/
theorem claim_C6_registry_invariant (s : ServerState) (ops : List Op)
    (h : RegistryInv s) : RegistryInv (runOps s ops) := by
  induction ops generalizing s with
  | nil => exact h
  | cons op rest ih =>
    rw [runOps, List.foldl_cons]
    exact ih (stepOp s op) (stepOp_inv s op h)

/-- Claim C9: firing an event key invokes every handler registered under
the key in list order with no short-circuit (the trace is the
concatenation of all the handlers' traces), a handler returning `None`
counts as `True`, and the returned aggregate is the logical AND of the
results; registering with `prepend=True` inserts at the head of the key's
list and otherwise appends at the tail. -/
theorem claim_C9_dispatch_router {κ α ε : Type} [DecidableEq κ]
    (k : κ) (cbs : List (α → Option Bool × List ε))
    (tbl : List (κ × List (α → Option Bool × List ε))) (a : α)
    (cb : α → Option Bool × List ε) :
    call_callbacks ((k, cbs) :: tbl) k a
        = (some (cbs.all (fun f => (f a).1.getD true)),
           (cbs.map (fun f => (f a).2)).flatten)
      ∧ register_callback ((k, cbs) :: tbl) k cb true
        = Except.ok ((k, cb :: cbs) :: tbl.map (fun e =>
            if e.1 = k then (e.1, cb :: e.2) else e))
      ∧ register_callback ((k, cbs) :: tbl) k cb false
        = Except.ok ((k, cbs ++ [cb]) :: tbl.map (fun e =>
            if e.1 = k then (e.1, e.2 ++ [cb]) else e)) := by
  refine ⟨?_, ?_, ?_⟩
  · unfold call_callbacks
    rw [List.find?_cons_of_pos _ (by simp)]
    dsimp only
    rw [callbacks_foldl a cbs true []]
    simp
  · unfold register_callback
    rw [if_pos (by simp)]
    simp
  · unfold register_callback
    rw [if_pos (by simp)]
    simp

/-- Claim C8: for a join request that specifies no player color, the color
`Server.onjoingame` auto-assigns is the smallest positive integer not
already used by any member of the target game. -/
theorem claim_C8_auto_color (s : ServerState) (g : Game) (pk : JoinPacket)
    (hpc : pk.playercolor = none) :
    IsLeast {c : Int | 1 ≤ c ∧ ∀ m ∈ gamePlayers s g, m.color ≠ c}
      (resolvedColor s g pk) := by
  have hrc : resolvedColor s g pk
      = assign_color ((gamePlayers s g).map (fun p => p.color)) := by
    unfold resolvedColor
    rw [hpc]
  rw [hrc]
  obtain ⟨⟨ha1, ha2⟩, hmin⟩ := assign_color_isLeast ((gamePlayers s g).map (fun p => p.color))
  constructor
  · refine ⟨ha1, ?_⟩
    intro m hm hc
    exact ha2 (List.mem_map.mpr ⟨m, hm, hc⟩)
  · rintro b ⟨hb1, hb2⟩
    apply hmin
    refine ⟨hb1, ?_⟩
    intro hbmem
    obtain ⟨m, hm, hmc⟩ := List.mem_map.mp hbmem
    exact hb2 m hm hmc

/-- Fixture: first member of the sample game, holding color 1. -/
def cPlayer1 : Player :=
  { sid := "p1", peer := 1, protocol := 1, name := "alice", color := 1,
    clientid := "c1", game := some 7 }

/-- Fixture: second member of the sample game, holding color 3. -/
def cPlayer3 : Player :=
  { sid := "p3", peer := 3, protocol := 1, name := "carol", color := 3,
    clientid := "c3", game := some 7 }

/-- Fixture: a joining player not yet in any game. -/
def cJoiner : Player :=
  { sid := "pj", peer := 5, protocol := 1, name := "", color := 0,
    clientid := "", game := none }

/-- Fixture: an open two-member game with colors 1 and 3 in use. -/
def cGame : Game :=
  { uuid := 7, creator := "p1", creatorProtocol := 1, creatorVersion := 3,
    mapname := "m", players := ["p1", "p3"], maxplayers := 4,
    password := none, state := GState.Open }

/-- Fixture: registry state holding the sample game and its members. -/
def cState : ServerState :=
  { games := [cGame], players := [cPlayer1, cPlayer3, cJoiner], nextUuid := 8 }

/-- Fixture: a join request with no color requested. -/
def cJoinNoColor : JoinPacket :=
  { uuid := 7, clientversion := 3, password := none, playername := "bob",
    playercolor := none, clientid := "cb" }

/-- Witness for C8: in the game with member colors 1 and 3 the
auto-assigned color is 2, the least unused positive integer. -/
theorem claim_C8_witness :
    cJoinNoColor.playercolor = none
      ∧ IsLeast {c : Int | 1 ≤ c ∧ ∀ m ∈ gamePlayers cState cGame, m.color ≠ c}
          (resolvedColor cState cGame cJoinNoColor)
      ∧ resolvedColor cState cGame cJoinNoColor = 2 :=
  ⟨rfl, claim_C8_auto_color cState cGame cJoinNoColor rfl, by decide⟩

lemma collisionMsg_none {members : List Player} {name : String} {color : Int} {cid : String}
    (h : collisionMsg members name color cid = none) :
    ∀ m ∈ members, m.name ≠ name ∧ m.color ≠ color ∧ m.clientid ≠ cid := by
  induction members with
  | nil =>
    intro m hm
    cases hm
  | cons x rest ih =>
    intro m hm
    rw [collisionMsg] at h
    split_ifs at h with hx1 hx2 hx3
    rcases List.mem_cons.mp hm with rfl | hm'
    · exact ⟨hx1, hx2, hx3⟩
    · exact ih h m hm'

/-- Claim C7: a join request whose requested or derived name, color or
client id collides with an existing member of the target game fails with a
soft error sent to the joining player, and the server state (membership
and all member records) is left completely unchanged. -/
theorem claim_C7_join_collision (s : ServerState) (p : Player) (pk : JoinPacket) (g : Game)
    (hf : find_game_from_uuid s pk = some g)
    (hcol : ∃ m ∈ gamePlayers s g,
      m.name = pk.playername ∨ m.color = resolvedColor s g pk ∨ m.clientid = pk.clientid) :
    (onjoingame s p pk).1 = s
      ∧ ∃ msg, (onjoingame s p pk).2
          = [Action.send p.peer (SPacket.error msg ErrorType.NotSet)] := by
  unfold onjoingame
  split
  · exact ⟨rfl, Msg.alreadyInGame, rfl⟩
  · rw [hf]
    dsimp only
    split_ifs with h1 h2 h3 h4 h5
    · exact ⟨rfl, Msg.gameStarted, rfl⟩
    · exact ⟨rfl, Msg.gameFull, rfl⟩
    · exact ⟨rfl, Msg.wrongPassword, rfl⟩
    · split
      · rename_i m hm
        exact ⟨rfl, m, rfl⟩
      · rename_i hnone
        obtain ⟨m, hmem, hdisj⟩ := hcol
        obtain ⟨d1, d2, d3⟩ := collisionMsg_none hnone m hmem
        rcases hdisj with hd | hd | hd
        · exact absurd hd d1
        · exact absurd hd d2
        · exact absurd hd d3
    · split
      · rename_i m hm
        exact ⟨rfl, m, rfl⟩
      · rename_i hnone
        obtain ⟨m, hmem, hdisj⟩ := hcol
        obtain ⟨d1, d2, d3⟩ := collisionMsg_none hnone m hmem
        rcases hdisj with hd | hd | hd
        · exact absurd hd d1
        · exact absurd hd d2
        · exact absurd hd d3
    · split
      · rename_i m hm
        exact ⟨rfl, m, rfl⟩
      · rename_i hnone
        obtain ⟨m, hmem, hdisj⟩ := hcol
        obtain ⟨d1, d2, d3⟩ := collisionMsg_none hnone m hmem
        rcases hdisj with hd | hd | hd
        · exact absurd hd d1
        · exact absurd hd d2
        · exact absurd hd d3

/-- Fixture: a join request colliding on the name of an existing member. -/
def cJoinCollide : JoinPacket :=
  { uuid := 7, clientversion := 3, password := none, playername := "alice",
    playercolor := some 2, clientid := "cx" }

/-- Witness for C7: joining the sample game with the already-used name
leaves the state untouched and yields exactly one soft error reply. -/
theorem claim_C7_witness :
    find_game_from_uuid cState cJoinCollide = some cGame
      ∧ (∃ m ∈ gamePlayers cState cGame,
          m.name = cJoinCollide.playername
            ∨ m.color = resolvedColor cState cGame cJoinCollide
            ∨ m.clientid = cJoinCollide.clientid)
      ∧ (onjoingame cState cJoiner cJoinCollide).1 = cState
      ∧ ∃ msg, (onjoingame cState cJoiner cJoinCollide).2
          = [Action.send cJoiner.peer (SPacket.error msg ErrorType.NotSet)] := by
  have hf : find_game_from_uuid cState cJoinCollide = some cGame := rfl
  have hcol : ∃ m ∈ gamePlayers cState cGame,
      m.name = cJoinCollide.playername
        ∨ m.color = resolvedColor cState cGame cJoinCollide
        ∨ m.clientid = cJoinCollide.clientid := by
    refine ⟨cPlayer1, by decide, Or.inl rfl⟩
  have hmain := claim_C7_join_collision cState cJoiner cJoinCollide cGame hf hcol
  exact ⟨hf, hcol, hmain.1, hmain.2⟩

lemma mem_updateGame (s : ServerState) (u : Nat) (g' : Game) (x : Game)
    (hx : x ∈ (updateGame s u g').games) : x = g' ∨ (x ∈ s.games ∧ ¬ x.uuid = u) := by
  unfold updateGame at hx
  simp only [List.mem_map] at hx
  obtain ⟨y, hy, hyx⟩ := hx
  by_cases hc : y.uuid = u
  · rw [if_pos hc] at hyx
    exact Or.inl hyx.symm
  · rw [if_neg hc] at hyx
    rw [← hyx]
    exact Or.inr ⟨hy, hc⟩

/-- Claim C10: a join by a protocol-0 player that fills the game triggers
the prepare transition immediately (game state becomes Prepare and every
member receives a prepare packet) without any ready-toggle; a join by a
player on protocol ≥ 1 never triggers it (the game keeps its state and no
prepare packet is sent). -/
theorem claim_C10_protocol0_autoprepare (s : ServerState) (p : Player) (pk : JoinPacket)
    (g : Game)
    (hpg : p.game = none)
    (hf : find_game_from_uuid s pk = some g)
    (hopen : g.is_open = true)
    (hfull : g.is_full = false)
    (hpw : ¬ (g.has_password = true ∧ pk.password ≠ g.password))
    (hcol : collisionMsg (gamePlayers s g) pk.playername (resolvedColor s g pk) pk.clientid
        = none) :
    (p.protocol = 0 → (joinedGame g p).is_full = true →
      (∀ x ∈ (onjoingame s p pk).1.games, x.uuid = g.uuid → x.state = GState.Prepare)
        ∧ ∀ q ∈ gamePlayers (joinedState s g p pk) (joinedGame g p),
            Action.send q.peer SPacket.preparegame ∈ (onjoingame s p pk).2)
      ∧ (1 ≤ p.protocol →
          (∀ x ∈ (onjoingame s p pk).1.games, x.uuid = g.uuid → x.state = g.state)
            ∧ ∀ a ∈ (onjoingame s p pk).2, ∀ pe, a ≠ Action.send pe SPacket.preparegame) := by
  have h0 : ¬ (p.game ≠ none) := by simp [hpg]
  unfold onjoingame
  rw [if_neg h0, hf]
  dsimp only
  rw [if_neg (by simp [hopen]), if_neg (by simp [hfull]), if_neg hpw, hcol]
  dsimp only
  constructor
  · intro hp0 hfull'
    rw [if_pos hp0, if_pos hfull']
    constructor
    · intro x hx hxu
      simp only [preparegame_fst] at hx
      rcases mem_updateGame _ _ _ _ hx with hx1 | hx1
      · rw [hx1]
      · exfalso
        apply hx1.2
        rw [hxu, joinedGame_uuid]
    · intro q hq
      refine List.mem_append.mpr (Or.inr ?_)
      exact List.mem_map.mpr ⟨q, hq, rfl⟩
  · intro hp1
    rw [if_neg (by omega)]
    constructor
    · intro x hx hxu
      rw [show (joinedState s g p pk).games
          = (updateGame s g.uuid (joinedGame g p)).games from rfl] at hx
      rcases mem_updateGame _ _ _ _ hx with hx1 | hx1
      · rw [hx1]
        rfl
      · exact absurd hxu hx1.2
    · intro a ha pe
      obtain ⟨q, hq, hqa⟩ := List.mem_map.mp ha
      rw [← hqa]
      simp

/-- Fixture: a protocol-0 joiner for the auto-prepare claim. -/
def tJoiner0 : Player := { sid := "pz", peer := 6, protocol := 0 }

/-- Fixture: an open game one seat short of full. -/
def tGame : Game :=
  { uuid := 9, creator := "p1", creatorProtocol := 1, creatorVersion := 3,
    mapname := "m", players := ["p1", "p3"], maxplayers := 3,
    password := none, state := GState.Open }

/-- Fixture: registry for the auto-prepare witness. -/
def tState : ServerState :=
  { games := [tGame], players := [cPlayer1, cPlayer3, tJoiner0], nextUuid := 10 }

/-- Fixture: a join request that fills the sample game. -/
def tJoinPk : JoinPacket :=
  { uuid := 9, clientversion := 3, password := none, playername := "bob",
    playercolor := some 2, clientid := "cb" }

/-- Witness for C10: the protocol-0 join fills the three-seat game and the
prepare transition fires. -/
theorem claim_C10_witness :
    tJoiner0.game = none
      ∧ find_game_from_uuid tState tJoinPk = some tGame
      ∧ tGame.is_open = true
      ∧ tGame.is_full = false
      ∧ ((tJoiner0.protocol = 0 → (joinedGame tGame tJoiner0).is_full = true →
          (∀ x ∈ (onjoingame tState tJoiner0 tJoinPk).1.games,
              x.uuid = tGame.uuid → x.state = GState.Prepare)
            ∧ ∀ q ∈ gamePlayers (joinedState tState tGame tJoiner0 tJoinPk)
                (joinedGame tGame tJoiner0),
                Action.send q.peer SPacket.preparegame
                  ∈ (onjoingame tState tJoiner0 tJoinPk).2)
          ∧ (1 ≤ tJoiner0.protocol →
              (∀ x ∈ (onjoingame tState tJoiner0 tJoinPk).1.games,
                  x.uuid = tGame.uuid → x.state = tGame.state)
                ∧ ∀ a ∈ (onjoingame tState tJoiner0 tJoinPk).2, ∀ pe,
                    a ≠ Action.send pe SPacket.preparegame)) := by
  refine ⟨rfl, rfl, rfl, rfl, ?_⟩
  exact claim_C10_protocol0_autoprepare tState tJoiner0 tJoinPk tGame rfl rfl rfl rfl
    (by decide) rfl

/-- Fixture: two connected players with no game, for the registry
invariant witness. -/
def wPlayerA : Player := { sid := "a", peer := 1, protocol := 1 }

/-- Fixture: second connected player for the registry invariant witness. -/
def wPlayerB : Player := { sid := "b", peer := 2, protocol := 1 }

/-- Fixture: starting state with an empty game registry. -/
def wState0 : ServerState :=
  { games := [], players := [wPlayerA, wPlayerB], nextUuid := 0 }

/-- Fixture: a valid create-game request for two players. -/
def wCreate : CreatePacket :=
  { clientversion := 3, mapname := "m", maxplayers := 2, password := none }

/-- Fixture: a join request matching the game the witness sequence
creates. -/
def wJoin : JoinPacket :=
  { uuid := 0, clientversion := 3, password := none, playername := "bob",
    playercolor := none, clientid := "cb" }

/-- Fixture: a create/join/leave/leave operation sequence. -/
def wOps : List Op :=
  [Op.create "a" wCreate, Op.join "b" wJoin, Op.leave "b", Op.leave "a"]

/-- Witness for C6: the invariant holds at the empty starting state and is
preserved across a concrete create/join/leave/leave sequence. -/
theorem claim_C6_witness :
    RegistryInv wState0 ∧ RegistryInv (runOps wState0 wOps) := by
  have h0 : RegistryInv wState0 := by
    intro g hg
    simp [wState0] at hg
  exact ⟨h0, claim_C6_registry_invariant wState0 wOps h0⟩

/-- Claim C1 (amended): a parsed packet whose embedded session id differs
from the one issued at connect time is always answered with a fatal error
followed by a disconnect, and is never dispatched — provided the packet
reaches unserialization at all, i.e. the sender's game is not Running.  (A
sender in a Running game hits the relay short path, where the payload is
forwarded raw before any session id check; see the counterexample.) -/
theorem claim_C1_sid_mismatch_fatal (s : ServerState) (pd : String) (peer : Nat)
    (d : RawData) (p : Player) (pkt : CPacket)
    (hp : findPlayer s pd = some p)
    (hsize : d.len ≤ maxpacketsize)
    (hrun : playerInRunningGame s p = false)
    (hparse : d.parse = ParseResult.ok pkt)
    (hsid : pkt.sid ≠ p.sid) :
    onreceive s (some pd) peer d
      = Except.ok (s, [Action.send p.peer (SPacket.fatalerror Msg.invalidSession),
                       Action.disconnect p.peer true]) := by
  unfold onreceive
  dsimp only
  rw [hp]
  dsimp only
  rw [if_neg (by omega), if_neg (by simp [hrun]), hparse]
  dsimp only
  rw [if_pos hsid]
  rfl

/-- Fixture: first member of the running game. -/
def runPlayer1 : Player :=
  { sid := "s1", peer := 1, protocol := 1, name := "a", color := 1,
    clientid := "d1", game := some 40 }

/-- Fixture: second member of the running game. -/
def runPlayer2 : Player :=
  { sid := "s2", peer := 2, protocol := 1, name := "b", color := 2,
    clientid := "d2", game := some 40 }

/-- Fixture: a game in the Running state. -/
def runGame : Game :=
  { uuid := 40, creator := "s1", creatorProtocol := 1, creatorVersion := 3,
    mapname := "m", players := ["s1", "s2"], maxplayers := 2,
    password := none, state := GState.Running }

/-- Fixture: registry with the running game. -/
def runState : ServerState :=
  { games := [runGame], players := [runPlayer1, runPlayer2], nextUuid := 41 }

/-- Fixture: a datagram that would parse to a packet with a wrong embedded
session id. -/
def badSidData : RawData :=
  { len := 4, parse := ParseResult.ok { sid := "WRONG", body := CPacketBody.unhandled } }

/-- Counterexample to claim C1: when the sender's game is Running the data
is relayed raw to the other member — no session id check, no fatal error,
no disconnect — even though the embedded session id is wrong. -/
theorem claim_C1_counterexample :
    ({ sid := "WRONG", body := CPacketBody.unhandled } : CPacket).sid ≠ runPlayer1.sid
      ∧ onreceive runState (some "s1") 1 badSidData
        = Except.ok (runState, [Action.sendraw 2 badSidData]) :=
  ⟨by decide, rfl⟩

/-- Witness for C1 (amended): a lobby player sending a packet with a wrong
session id gets a fatal error and is disconnected. -/
theorem claim_C1_witness :
    findPlayer wState0 "a" = some wPlayerA
      ∧ badSidData.len ≤ maxpacketsize
      ∧ playerInRunningGame wState0 wPlayerA = false
      ∧ onreceive wState0 (some "a") 1 badSidData
        = Except.ok (wState0, [Action.send wPlayerA.peer (SPacket.fatalerror Msg.invalidSession),
                               Action.disconnect wPlayerA.peer true]) := by
  refine ⟨rfl, by decide, rfl, ?_⟩
  exact claim_C1_sid_mismatch_fatal wState0 "a" 1 badSidData wPlayerA
    { sid := "WRONG", body := CPacketBody.unhandled } rfl (by decide) rfl rfl (by decide)

/-- Fixture: a create-game request below the server's player minimum. -/
def badCreate : CreatePacket :=
  { clientversion := 3, mapname := "m", maxplayers := 1, password := none }

/-- Fixture: a datagram parsing to the invalid create-game request, with
the correct session id of player "a". -/
def badCreateData : RawData :=
  { len := 8, parse := ParseResult.ok { sid := "a", body := CPacketBody.creategame badCreate } }

/-- Claim C2 (code bug): the SoftNetworkException raised by oncreategame
for a maxplayers below the minimum escapes the dispatch boundary uncaught.
`Server.onreceive` wraps only `packets.unserialize` in try/except; the
handler call `self.call_callbacks(packet.__class__, ...)` has no exception
handling, so the exception propagates into the main loop instead of being
converted into a soft error reply. -/
theorem claim_C2_handler_exception_escapes :
    onreceive wState0 (some "a") 1 badCreateData
      = Except.error (Exn.soft (Msg.tooFewPlayers minplayers)) := rfl

/-- Fixture: a datagram whose unserialization fails with PacketTooLarge
(per-opcode ceiling exceeded) while its raw length is far below the global
ceiling. -/
def tooLargeData : RawData :=
  { len := 1000, parse := ParseResult.tooLarge 70000 }

/-- Counterexample to claim C3: a per-opcode size violation inside the
global limit is answered with cmd_fatalerror and a disconnect (connection
not kept intact), not with a recoverable soft error. -/
theorem claim_C3_counterexample :
    tooLargeData.len ≤ maxpacketsize
      ∧ onreceive wState0 (some "a") 1 tooLargeData
        = Except.ok (wState0,
            [Action.send 1 (SPacket.fatalerror (Msg.perPacketSize 70000)),
             Action.disconnect 1 true]) :=
  ⟨by decide, rfl⟩

/-- Claim C3 (amended): an inbound packet that violates its opcode-specific
size ceiling while staying within the global maximum is answered — like a
global-ceiling violation — with a fatal error and a disconnect; the fatal
message names the offending size. -/
theorem claim_C3_per_packet_fatal (s : ServerState) (pd : String) (peer : Nat)
    (d : RawData) (p : Player) (size : Nat)
    (hp : findPlayer s pd = some p)
    (hsize : d.len ≤ maxpacketsize)
    (hrun : playerInRunningGame s p = false)
    (hparse : d.parse = ParseResult.tooLarge size) :
    onreceive s (some pd) peer d
      = Except.ok (s, [Action.send p.peer (SPacket.fatalerror (Msg.perPacketSize size)),
                       Action.disconnect p.peer true]) := by
  unfold onreceive
  dsimp only
  rw [hp]
  dsimp only
  rw [if_neg (by omega), if_neg (by simp [hrun]), hparse]
  rfl

/-- Witness for C3 (amended): the concrete per-packet-size violation is
answered fatally with the size in the message. -/
theorem claim_C3_witness :
    findPlayer wState0 "a" = some wPlayerA
      ∧ tooLargeData.len ≤ maxpacketsize
      ∧ playerInRunningGame wState0 wPlayerA = false
      ∧ onreceive wState0 (some "a") 1 tooLargeData
        = Except.ok (wState0,
            [Action.send wPlayerA.peer (SPacket.fatalerror (Msg.perPacketSize 70000)),
             Action.disconnect wPlayerA.peer true]) := by
  refine ⟨rfl, by decide, rfl, ?_⟩
  exact claim_C3_per_packet_fatal wState0 "a" 1 tooLargeData wPlayerA 70000
    rfl (by decide) rfl rfl

lemma filter_not_filter (l : List Game) (u : Nat) :
    ((l.filter (fun x => decide (¬ x.uuid = u))).filter (fun x => decide (x.uuid = u))) = [] := by
  induction l with
  | nil => rfl
  | cons a t ih =>
    by_cases h : a.uuid = u
    · simp [List.filter_cons, h, ih]
    · simp [List.filter_cons, h, ih]

/-- Claim C4 (amended): when the creator of an Open game leaves while at
least one other member remains AND the creator runs protocol ≥ 1, the
whole game is torn down — it disappears from the registry — and every
remaining member is sent an explicit TerminateGame error notice in
addition to the membership snapshot.  A protocol-0 creator's leave does
not terminate the game (see the counterexample): the remaining members
only get a silent membership update. -/
theorem claim_C4_creator_leave_terminates (s : ServerState) (p : Player) (u : Nat) (g : Game)
    (hpg : p.game = some u)
    (hf : findGameByUuid s u = some g)
    (hopen : g.is_open = true)
    (hcreator : p.sid = g.creator)
    (hproto : 1 ≤ p.protocol)
    (hcp : g.creatorProtocol = p.protocol)
    (hrest : (erasedGame g p).is_empty = false) :
    ((leavegame s p).1.games.filter (fun x => decide (x.uuid = g.uuid)) = [])
      ∧ ∀ q ∈ gamePlayers (leftState s g p) (erasedGame g p),
          Action.send q.peer (SPacket.error Msg.terminated ErrorType.TerminateGame)
            ∈ (leavegame s p).2 := by
  unfold leavegame
  rw [hpg]
  dsimp only
  rw [hf]
  dsimp only
  rw [if_neg (by simp [hopen]), if_neg (by simp [hrest]), if_pos ⟨hproto, hcreator⟩]
  constructor
  · dsimp only
    rw [terminategame_fst, deletegame_games, leftState_games]
    simp only [erasedGame_uuid]
    exact filter_not_filter _ g.uuid
  · intro q hq
    dsimp only
    refine List.mem_append.mpr (Or.inr ?_)
    have hcp' : 1 ≤ (erasedGame g p).creatorProtocol := by
      show 1 ≤ g.creatorProtocol
      omega
    have hop' : (erasedGame g p).is_open = true := hopen
    show _ ∈ (terminategame (leftState s g p) (erasedGame g p)).2
    unfold terminategame
    dsimp only
    rw [if_pos ⟨hcp', hop'⟩]
    refine List.mem_append.mpr (Or.inl ?_)
    exact List.mem_map.mpr ⟨q, hq, rfl⟩

/-- Witness for C4 (amended): the protocol-1 creator of the two-member
sample game leaves; the game vanishes from the registry and the remaining
member receives the TerminateGame notice. -/
theorem claim_C4_witness :
    cPlayer1.game = some 7
      ∧ findGameByUuid cState 7 = some cGame
      ∧ cGame.is_open = true
      ∧ cPlayer1.sid = cGame.creator
      ∧ 1 ≤ cPlayer1.protocol
      ∧ ((leavegame cState cPlayer1).1.games.filter
          (fun x => decide (x.uuid = cGame.uuid)) = [])
      ∧ ∀ q ∈ gamePlayers (leftState cState cGame cPlayer1) (erasedGame cGame cPlayer1),
          Action.send q.peer (SPacket.error Msg.terminated ErrorType.TerminateGame)
            ∈ (leavegame cState cPlayer1).2 := by
  have hmain := claim_C4_creator_leave_terminates cState cPlayer1 7 cGame
    rfl rfl rfl rfl (by decide) rfl rfl
  exact ⟨rfl, rfl, rfl, rfl, by decide, hmain.1, hmain.2⟩

/-- Fixture: a protocol-0 creator of an Open game. -/
def zCreator : Player :=
  { sid := "z1", peer := 11, protocol := 0, name := "zoe", color := 1,
    clientid := "zc", game := some 20 }

/-- Fixture: a second protocol-0 member of the same game. -/
def zOther : Player :=
  { sid := "z2", peer := 12, protocol := 0, name := "yan", color := 2,
    clientid := "yc", game := some 20 }

/-- Fixture: an Open game created by the protocol-0 creator. -/
def zGame : Game :=
  { uuid := 20, creator := "z1", creatorProtocol := 0, creatorVersion := 3,
    mapname := "m", players := ["z1", "z2"], maxplayers := 4,
    password := none, state := GState.Open }

/-- Fixture: registry with the protocol-0 game and both members. -/
def zState : ServerState :=
  { games := [zGame], players := [zCreator, zOther], nextUuid := 21 }

/-- Counterexample to claim C4: the protocol-0 creator leaving an Open game
with another member remaining does NOT tear the game down — the game stays
in the registry and the remaining member only receives a membership
snapshot (no termination notice is sent). -/
theorem claim_C4_counterexample :
    zCreator.sid = zGame.creator
      ∧ zGame.state = GState.Open
      ∧ (leavegame zState zCreator).1.games = [{ zGame with players := ["z2"] }]
      ∧ (leavegame zState zCreator).2
          = [Action.send 12 (SPacket.gamestate { zGame with players := ["z2"] })] :=
  ⟨rfl, rfl, rfl, rfl⟩

/-- Claim C5 (amended): in an Open game, a ready-toggle moves the game to
Prepare with a prepare broadcast exactly when every member is ready after
the toggle; a prepared-acknowledgement moves the game to Running with a
start broadcast exactly when every member is prepared after it — but the
code never requires the Prepare state for the latter, so Running can be
reached directly from any state reaching the handler, in particular from
Open (see the counterexample). -/
theorem claim_C5_ready_prepare_transitions (s : ServerState) (p : Player) (u : Nat) (g : Game)
    (hpg : p.game = some u)
    (hf : findGameByUuid s u = some g) :
    (g.is_open = true →
      (gameIsReady (toggledState s p) g = true →
          (∀ x ∈ (ontoggleready s p).1.games, x.uuid = g.uuid → x.state = GState.Prepare)
            ∧ ∀ q ∈ gamePlayers (toggledState s p) g,
                Action.send q.peer SPacket.preparegame ∈ (ontoggleready s p).2)
        ∧ (gameIsReady (toggledState s p) g = false →
            (ontoggleready s p).1 = toggledState s p
              ∧ ∀ pe, Action.send pe SPacket.preparegame ∉ (ontoggleready s p).2))
      ∧ (((gamePlayers (preparedState s p) g).filter (fun q => q.prepared)).length
            = g.playercnt →
          (∀ x ∈ (onpreparedgame s p).1.games, x.uuid = g.uuid → x.state = GState.Running)
            ∧ ∀ q ∈ gamePlayers (preparedState s p) g,
                Action.send q.peer SPacket.startgame ∈ (onpreparedgame s p).2)
      ∧ (((gamePlayers (preparedState s p) g).filter (fun q => q.prepared)).length
            ≠ g.playercnt →
          (onpreparedgame s p).1 = preparedState s p ∧ (onpreparedgame s p).2 = []) := by
  refine ⟨?_, ?_, ?_⟩
  · intro hopen
    unfold ontoggleready
    rw [hpg]
    dsimp only
    rw [hf]
    dsimp only
    rw [if_neg (by simp [hopen])]
    constructor
    · intro hready
      rw [if_pos hready]
      constructor
      · intro x hx hxu
        dsimp only at hx
        simp only [preparegame_fst] at hx
        rcases mem_updateGame _ _ _ _ hx with h1 | h1
        · rw [h1]
        · exact absurd hxu h1.2
      · intro q hq
        dsimp only
        refine List.mem_append.mpr (Or.inr ?_)
        exact List.mem_map.mpr ⟨q, hq, rfl⟩
    · intro hnready
      rw [if_neg (by simp [hnready])]
      refine ⟨rfl, ?_⟩
      intro pe hmem
      obtain ⟨q, hq, hqe⟩ := List.mem_map.mp hmem
      simp at hqe
  · intro hcount
    unfold onpreparedgame
    rw [hpg]
    dsimp only
    rw [hf]
    dsimp only
    rw [if_neg (by simp [hcount])]
    constructor
    · intro x hx hxu
      simp only [startgame_fst] at hx
      rcases mem_updateGame _ _ _ _ hx with h1 | h1
      · rw [h1]
      · exact absurd hxu h1.2
    · intro q hq
      exact List.mem_map.mpr ⟨q, hq, rfl⟩
  · intro hcount
    unfold onpreparedgame
    rw [hpg]
    dsimp only
    rw [hf]
    dsimp only
    rw [if_pos hcount]
    exact ⟨rfl, rfl⟩

/-- Fixture: a lone not-yet-ready member of an Open game. -/
def vPlayer : Player :=
  { sid := "v1", peer := 21, protocol := 1, name := "v", color := 1,
    clientid := "vc", game := some 50 }

/-- Fixture: the Open game for the ready-toggle witness. -/
def vGame : Game :=
  { uuid := 50, creator := "v1", creatorProtocol := 1, creatorVersion := 3,
    mapname := "m", players := ["v1"], maxplayers := 2,
    password := none, state := GState.Open }

/-- Fixture: registry for the ready-toggle witness. -/
def vState : ServerState :=
  { games := [vGame], players := [vPlayer], nextUuid := 51 }

/-- Witness for C5 (amended): the ready-toggle that makes every member
ready moves the concrete game to Prepare and broadcasts the prepare
packet. -/
theorem claim_C5_witness :
    vPlayer.game = some 50
      ∧ findGameByUuid vState 50 = some vGame
      ∧ vGame.is_open = true
      ∧ gameIsReady (toggledState vState vPlayer) vGame = true
      ∧ (∀ x ∈ (ontoggleready vState vPlayer).1.games,
          x.uuid = vGame.uuid → x.state = GState.Prepare)
      ∧ ∀ q ∈ gamePlayers (toggledState vState vPlayer) vGame,
          Action.send q.peer SPacket.preparegame ∈ (ontoggleready vState vPlayer).2 := by
  have hmain := claim_C5_ready_prepare_transitions vState vPlayer 50 vGame rfl rfl
  have h1 := (hmain.1 rfl).1 rfl
  exact ⟨rfl, rfl, rfl, rfl, h1.1, h1.2⟩

/-- Fixture: the single member of an Open game acknowledging prepared. -/
def rvCreator : Player :=
  { sid := "r1", peer := 31, protocol := 1, name := "rex", color := 1,
    clientid := "rc", game := some 30 }

/-- Fixture: an Open (never prepared) single-member game. -/
def rvGame : Game :=
  { uuid := 30, creator := "r1", creatorProtocol := 1, creatorVersion := 3,
    mapname := "m", players := ["r1"], maxplayers := 2,
    password := none, state := GState.Open }

/-- Fixture: registry for the Open-to-Running counterexample. -/
def rvState : ServerState :=
  { games := [rvGame], players := [rvCreator], nextUuid := 31 }

/-- Fixture: a datagram carrying a preparedgame acknowledgement with the
correct session id. -/
def rvData : RawData :=
  { len := 10, parse := ParseResult.ok { sid := "r1", body := CPacketBody.preparedgame } }

/-- Counterexample to claim C5: a game still in the Open state whose single
member acknowledges prepared transitions directly to Running — the code
never checks for the Prepare state, so a game reaches Running without ever
passing through Prepare. -/
theorem claim_C5_counterexample :
    rvGame.state = GState.Open
      ∧ onreceive rvState (some "r1") 31 rvData
        = Except.ok ({ games := [{ rvGame with state := GState.Running }],
                       players := [{ rvCreator with prepared := true }],
                       nextUuid := 31 },
                     [Action.send 31 SPacket.startgame]) :=
  ⟨rfl, rfl⟩

end UH
